import Mathlib

/-!
Shallow embedding of the ZADOS neurochemical core (the `zados/neurochem`
package) and verification of the frozen claims about it.

Python floats are modelled as real numbers, Python dicts (which preserve
insertion order and have unique keys) as association lists with an
insert-or-overwrite operation, and raised exceptions as `Except PyError`.
-/

namespace ZADOS

/-- The Python exceptions the embedded code can raise.  `keyError` carries the
missing key, mirroring `raise KeyError(f"... '{name}' ...")`. -/
inductive PyError where
  | keyError (key : String)
  | typeError
  | attributeError
  | valueError
  deriving DecidableEq

/-- Python dict assignment `d[k] = v`: overwrite in place when the key is
present (insertion order kept), append otherwise. -/
def dictSet {α : Type} (d : List (String × α)) (k : String) (v : α) :
    List (String × α) :=
  if (d.lookup k).isSome then
    d.map (fun p => if p.1 = k then (k, v) else p)
  else
    d ++ [(k, v)]

/-- Python `d.get(k, default)`. -/
def dictGetD {α : Type} (d : List (String × α)) (k : String) (dflt : α) : α :=
  (d.lookup k).getD dflt

/-! ## `zados/neurochem/state/neurotransmitter_state.py` -/

/-- `NeurotransmitterState`: the dynamical variables of one neurotransmitter
system (concentration decomposition `C = C_tonic + C_phasic`, fatigue `F`,
transporter efficiency `eta_u`). -/
structure NeurotransmitterState where
  C_tonic : ℝ
  C_phasic : ℝ
  F : ℝ
  eta_u : ℝ

namespace NeurotransmitterState

/-- The dataclass constructor followed by `__post_init__`, which clamps
`C_tonic`, `C_phasic` to `[0, ∞)` and `F`, `eta_u` to `[0, 1]`. -/
noncomputable def ofRaw (ct cp f eu : ℝ) : NeurotransmitterState :=
  { C_tonic := max 0 ct
    C_phasic := max 0 cp
    F := max 0 (min 1 f)
    eta_u := max 0 (min 1 eu) }

/-- `NeurotransmitterState()` with all defaults
(`C_tonic=0.5, C_phasic=0.0, F=0.0, eta_u=1.0`). -/
noncomputable def mkDefault : NeurotransmitterState := ofRaw 0.5 0 0 1

/-- Derived property `C = C_tonic + C_phasic`. -/
noncomputable def C (s : NeurotransmitterState) : ℝ := s.C_tonic + s.C_phasic

/-- `update_concentration(delta_C, is_phasic)`: add the delta to the selected
component and floor it at 0. -/
noncomputable def update_concentration (s : NeurotransmitterState)
    (delta_C : ℝ) (phasicFlag : Bool) : NeurotransmitterState :=
  if phasicFlag then
    { s with C_phasic := max 0 (s.C_phasic + delta_C) }
  else
    { s with C_tonic := max 0 (s.C_tonic + delta_C) }

/-- `set_concentration(C_total)`: allocate everything to tonic (floored at 0)
and zero the phasic component. -/
noncomputable def set_concentration (s : NeurotransmitterState)
    (C_total : ℝ) : NeurotransmitterState :=
  { s with C_tonic := max 0 C_total, C_phasic := 0 }

/-- `update_fatigue(delta_F)`: add and clamp to `[0, 1]`. -/
noncomputable def update_fatigue (s : NeurotransmitterState)
    (delta_F : ℝ) : NeurotransmitterState :=
  { s with F := max 0 (min 1 (s.F + delta_F)) }

/-- `update_transporter_efficiency(delta_eta)`: add and clamp to `[0, 1]`. -/
noncomputable def update_transporter_efficiency (s : NeurotransmitterState)
    (delta_eta : ℝ) : NeurotransmitterState :=
  { s with eta_u := max 0 (min 1 (s.eta_u + delta_eta)) }

/-- The documented domain invariant of `NeurotransmitterState`:
`C_tonic ≥ 0`, `C_phasic ≥ 0`, `F ∈ [0,1]`, `eta_u ∈ [0,1]`. -/
def Inv (s : NeurotransmitterState) : Prop :=
  0 ≤ s.C_tonic ∧ 0 ≤ s.C_phasic ∧ (0 ≤ s.F ∧ s.F ≤ 1) ∧
    (0 ≤ s.eta_u ∧ s.eta_u ≤ 1)

end NeurotransmitterState

/-! ## `zados/neurochem/state/receptor_state.py` -/

/-- `ReceptorFunctionalState`: the four functional states of a receptor. -/
inductive ReceptorFunctionalState where
  | ACTIVE
  | DESENSITIZED
  | INTERNALIZED
  | UPREGULATED
  deriving DecidableEq

/-- `ReceptorState`: the state container of one receptor subtype. -/
structure ReceptorState where
  receptor_id : String
  rho : ℝ
  sigma : ℝ
  lambda_loc : ℝ
  gamma_gprotein : ℝ
  chi : ReceptorFunctionalState
  exposure_trace : ℝ
  time_in_state : ℝ

namespace ReceptorState

/-- The dataclass constructor followed by `__post_init__`: `rho`, `sigma`,
`lambda_loc`, `gamma_gprotein` clamped to `[0,1]`; `exposure_trace` and
`time_in_state` floored at 0. -/
noncomputable def ofRaw (rid : String) (rho sigma lam gam : ℝ)
    (chi : ReceptorFunctionalState) (expo tis : ℝ) : ReceptorState :=
  { receptor_id := rid
    rho := max 0 (min 1 rho)
    sigma := max 0 (min 1 sigma)
    lambda_loc := max 0 (min 1 lam)
    gamma_gprotein := max 0 (min 1 gam)
    chi := chi
    exposure_trace := max 0 expo
    time_in_state := max 0 tis }

/-- `ReceptorState(receptor_id=rid)` with the remaining defaults
(`rho=1, sigma=1, lambda_loc=0.5, gamma_gprotein=1, chi=ACTIVE,
exposure_trace=0, time_in_state=0`). -/
noncomputable def mkDefault (rid : String) : ReceptorState :=
  ofRaw rid 1 1 0.5 1 ReceptorFunctionalState.ACTIVE 0 0

/-- `set_functional_state(new_state)`: when the target differs from the
current `chi`, switch to it and reset `time_in_state` to 0; otherwise leave
the state untouched.  (The function's debug `print` calls have no effect on
the state and are elided.) -/
def set_functional_state (s : ReceptorState)
    (new_state : ReceptorFunctionalState) : ReceptorState :=
  if new_state ≠ s.chi then
    { s with chi := new_state, time_in_state := 0 }
  else
    s

/-- `saturation(concentration, K_d) = C / (C + K_d)` (Michaelis–Menten
binding curve). -/
noncomputable def saturation (_s : ReceptorState) (concentration K_d : ℝ) : ℝ :=
  concentration / (concentration + K_d)

end ReceptorState

/-! ## `zados/neurochem/state/oscillation_state.py` -/

/-- `OscillationState`: global EEG-band amplitude envelopes.  The per-band
phase dictionary is carried along but unused by the readout. -/
structure OscillationState where
  delta : ℝ
  theta : ℝ
  alpha : ℝ
  beta : ℝ
  gamma : ℝ
  phase : List (String × ℝ)

/-- The dataclass constructor followed by `__post_init__`: every band
amplitude clamped to `[0, 1]`. -/
noncomputable def OscillationState.ofRaw (d t a b g : ℝ)
    (phase : List (String × ℝ)) : OscillationState :=
  { delta := max 0 (min 1 d)
    theta := max 0 (min 1 t)
    alpha := max 0 (min 1 a)
    beta := max 0 (min 1 b)
    gamma := max 0 (min 1 g)
    phase := phase }

/-! ## `zados/neurochem/core/registry.py`

Configuration dicts map parameter names to floats (the only way the engine
reads them). -/

/-- A configuration dictionary (`config` parameter of the registry). -/
def NTConfig : Type := List (String × ℝ)

/-- `NeurochemicalRegistry`: neurotransmitter name → state, receptor id →
state, the optional global oscillation state, and name → config.  Python
dicts are insertion-ordered; the association lists keep that order. -/
structure NeurochemicalRegistry where
  neurotransmitters : List (String × NeurotransmitterState)
  receptors : List (String × ReceptorState)
  oscillations : Option OscillationState
  configs : List (String × NTConfig)

namespace NeurochemicalRegistry

/-- `NeurochemicalRegistry()`: empty registry. -/
def init : NeurochemicalRegistry := ⟨[], [], none, []⟩

/-- `register_neurotransmitter(name, state, config=None)`: store the state
under the name; store the config too when one is given (`config is not
None`). -/
def register_neurotransmitter (reg : NeurochemicalRegistry) (name : String)
    (state : NeurotransmitterState) (config : Option NTConfig) :
    NeurochemicalRegistry :=
  { reg with
    neurotransmitters := dictSet reg.neurotransmitters name state
    configs := match config with
      | some c => dictSet reg.configs name c
      | none => reg.configs }

/-- `register_receptor(receptor_id, state)`: store the receptor state.  Note
the method accepts exactly these two arguments (besides `self`) and never
touches the config map. -/
def register_receptor (reg : NeurochemicalRegistry) (receptor_id : String)
    (state : ReceptorState) : NeurochemicalRegistry :=
  { reg with receptors := dictSet reg.receptors receptor_id state }

/-- `set_oscillations(osc_state)`. -/
def set_oscillations (reg : NeurochemicalRegistry) (osc : OscillationState) :
    NeurochemicalRegistry :=
  { reg with oscillations := some osc }

/-- `get_neurotransmitter(name)`: raise `KeyError` when the name is not
registered, return the stored state otherwise. -/
def get_neurotransmitter (reg : NeurochemicalRegistry) (name : String) :
    Except PyError NeurotransmitterState :=
  match reg.neurotransmitters.lookup name with
  | some s => Except.ok s
  | none => Except.error (PyError.keyError name)

/-- `get_receptor(receptor_id)`: raise `KeyError` when the id is not
registered, return the stored state otherwise. -/
def get_receptor (reg : NeurochemicalRegistry) (receptor_id : String) :
    Except PyError ReceptorState :=
  match reg.receptors.lookup receptor_id with
  | some s => Except.ok s
  | none => Except.error (PyError.keyError receptor_id)

/-- `get_oscillations()`: the oscillation state, or `None` when unset. -/
def get_oscillations (reg : NeurochemicalRegistry) : Option OscillationState :=
  reg.oscillations

/-- `get_config(name)`: raise `KeyError` when no config is stored under the
name, return it otherwise. -/
def get_config (reg : NeurochemicalRegistry) (name : String) :
    Except PyError NTConfig :=
  match reg.configs.lookup name with
  | some c => Except.ok c
  | none => Except.error (PyError.keyError name)

/-- `neurotransmitter_names()`: the keys, in insertion order. -/
def neurotransmitter_names (reg : NeurochemicalRegistry) : List String :=
  reg.neurotransmitters.map Prod.fst

/-- `receptor_ids()`: the keys, in insertion order. -/
def receptor_ids (reg : NeurochemicalRegistry) : List String :=
  reg.receptors.map Prod.fst

end NeurochemicalRegistry

/-! ## `zados/neurochem/core/engine.py` — setup API

`NeurochemicalEngine.add_receptor` forwards three positional arguments to
`NeurochemicalRegistry.register_receptor`, which accepts only two.  To make
that arity mismatch expressible, the registry call is modelled through a list
of positional-argument values: a call whose argument list does not match the
method's two parameters raises `TypeError`, exactly as Python does. -/

/-- A positional argument of the registry call made by `add_receptor`. -/
inductive RegistryArg where
  | str (s : String)
  | receptorState (s : ReceptorState)
  | config (c : NTConfig)

/-- Calling `register_receptor` with a list of positional arguments:
Python dispatches `(receptor_id, state)` and raises `TypeError` for any
other arity. -/
def registerReceptorCall (reg : NeurochemicalRegistry)
    (args : List RegistryArg) : Except PyError NeurochemicalRegistry :=
  match args with
  | [RegistryArg.str rid, RegistryArg.receptorState st] =>
      Except.ok (reg.register_receptor rid st)
  | _ => Except.error PyError.typeError

/-- `NeurochemicalEngine`: a registry, the simulation clock, and the fixed
integration step `dt`. -/
structure NeurochemicalEngine where
  registry : NeurochemicalRegistry
  current_time : ℝ
  dt : ℝ

namespace NeurochemicalEngine

/-- `NeurochemicalEngine(dt=0.01)`. -/
noncomputable def init : NeurochemicalEngine :=
  ⟨NeurochemicalRegistry.init, 0, 0.01⟩

/-- `add_neurotransmitter(name, initial_state=None, config=None)`: default
the state to `NeurotransmitterState()` and the config to `{}`, then register
both. -/
noncomputable def add_neurotransmitter (e : NeurochemicalEngine) (name : String)
    (initial_state : Option NeurotransmitterState) (config : Option NTConfig) :
    NeurochemicalEngine :=
  let st := initial_state.getD NeurotransmitterState.mkDefault
  let cfg := config.getD []
  { e with registry := e.registry.register_neurotransmitter name st (some cfg) }

/-- `add_receptor(receptor_id, initial_state=None, config=None)`: default the
state and config, then call
`self.registry.register_receptor(receptor_id, initial_state, config)` —
three positional arguments. -/
noncomputable def add_receptor (e : NeurochemicalEngine) (receptor_id : String)
    (initial_state : Option ReceptorState) (config : Option NTConfig) :
    Except PyError NeurochemicalEngine :=
  let st := initial_state.getD (ReceptorState.mkDefault receptor_id)
  let cfg := config.getD []
  (registerReceptorCall e.registry
      [RegistryArg.str receptor_id, RegistryArg.receptorState st,
        RegistryArg.config cfg]).map
    (fun r => { e with registry := r })

/-- `set_oscillation_state(oscillation_state)`. -/
def set_oscillation_state (e : NeurochemicalEngine) (osc : OscillationState) :
    NeurochemicalEngine :=
  { e with registry := e.registry.set_oscillations osc }

end NeurochemicalEngine

/-! ## Clamp facts shared by the invariant proofs -/

theorem max_zero_nonneg (x : ℝ) : 0 ≤ max 0 x := le_max_left 0 x

theorem clamp01_mem (x : ℝ) : 0 ≤ max 0 (min 1 x) ∧ max 0 (min 1 x) ≤ 1 :=
  ⟨le_max_left 0 _, max_le zero_le_one (min_le_left 1 x)⟩

/-- C7: construction (`__post_init__`) establishes the domain invariant, and
each of the four mutating operations, applied with arbitrary real arguments
to a state satisfying it, preserves it: `C_tonic ≥ 0`, `C_phasic ≥ 0`,
`F ∈ [0,1]`, `eta_u ∈ [0,1]` hold after every mutation. -/
theorem neurotransmitter_state_invariant_preserved
    (ct cp f eu delta_C C_total delta_F delta_eta : ℝ) (b : Bool)
    (s : NeurotransmitterState) :
    NeurotransmitterState.Inv (NeurotransmitterState.ofRaw ct cp f eu) ∧
    (NeurotransmitterState.Inv s →
      NeurotransmitterState.Inv (s.update_concentration delta_C b) ∧
      NeurotransmitterState.Inv (s.set_concentration C_total) ∧
      NeurotransmitterState.Inv (s.update_fatigue delta_F) ∧
      NeurotransmitterState.Inv (s.update_transporter_efficiency delta_eta)) := by
  constructor
  · exact ⟨max_zero_nonneg ct, max_zero_nonneg cp, clamp01_mem f, clamp01_mem eu⟩
  · rintro ⟨h1, h2, h3, h4⟩
    refine ⟨?_, ?_, ?_, ?_⟩
    · cases b <;>
        simp only [NeurotransmitterState.update_concentration,
          NeurotransmitterState.Inv, Bool.false_eq_true, if_true, if_false] <;>
        exact ⟨by first | exact max_zero_nonneg _ | exact h1,
          by first | exact max_zero_nonneg _ | exact h2, h3, h4⟩
    · exact ⟨max_zero_nonneg _, le_refl 0, h3, h4⟩
    · exact ⟨h1, h2, clamp01_mem _, h4⟩
    · exact ⟨h1, h2, h3, clamp01_mem _⟩

/-- Witness for C7 at a concrete state and concrete arguments. -/
theorem neurotransmitter_state_invariant_preserved_witness :
    NeurotransmitterState.Inv
      (NeurotransmitterState.ofRaw 2 (-3) 7 (-1)) ∧
    (NeurotransmitterState.Inv (NeurotransmitterState.mk 0.5 0 0 1) →
      NeurotransmitterState.Inv
        ((NeurotransmitterState.mk 0.5 0 0 1).update_concentration (-9) true) ∧
      NeurotransmitterState.Inv
        ((NeurotransmitterState.mk 0.5 0 0 1).set_concentration (-2)) ∧
      NeurotransmitterState.Inv
        ((NeurotransmitterState.mk 0.5 0 0 1).update_fatigue 5) ∧
      NeurotransmitterState.Inv
        ((NeurotransmitterState.mk 0.5 0 0 1).update_transporter_efficiency (-5))) :=
  neurotransmitter_state_invariant_preserved 2 (-3) 7 (-1) (-9) (-2) 5 (-5) true
    (NeurotransmitterState.mk 0.5 0 0 1)

/-- C8: `set_functional_state(s)` resets `time_in_state` to 0 and installs the
new `chi` exactly when the target differs from the current `chi`; a no-op
transition changes nothing; and every other field is unchanged in both
cases. -/
theorem set_functional_state_resets_timer_iff_changed
    (s : ReceptorState) (t : ReceptorFunctionalState) :
    (t ≠ s.chi →
      (s.set_functional_state t).chi = t ∧
      (s.set_functional_state t).time_in_state = 0) ∧
    (t = s.chi → s.set_functional_state t = s) ∧
    (s.set_functional_state t).receptor_id = s.receptor_id ∧
    (s.set_functional_state t).rho = s.rho ∧
    (s.set_functional_state t).sigma = s.sigma ∧
    (s.set_functional_state t).lambda_loc = s.lambda_loc ∧
    (s.set_functional_state t).gamma_gprotein = s.gamma_gprotein ∧
    (s.set_functional_state t).exposure_trace = s.exposure_trace := by
  unfold ReceptorState.set_functional_state
  by_cases h : t = s.chi
  · simp [h]
  · simp [h]

/-! ## `zados/neurochem/neurosymbolic/metrics.py` -/

/-- `NeurochemicalMetrics`: the 8 derived metrics. -/
structure NeurochemicalMetrics where
  motivation : ℝ
  empathy : ℝ
  cognitive_rigidity : ℝ
  fatigue : ℝ
  precision : ℝ
  openness : ℝ
  anxiety : ℝ
  social_engagement : ℝ

/-- `compute_motivation = clamp01((S_DA_D3 + S_OXT - S_GABA_B + 1) / 3)`. -/
noncomputable def compute_motivation (S_DA_D3 S_OXT S_GABA_B : ℝ) : ℝ :=
  max 0 (min 1 ((S_DA_D3 + S_OXT - S_GABA_B + 1) / 3))

/-- `compute_empathy = S_OXTR * phi_theta * S_5HT1A` — returned as is, with
no clamping (the source comments that the inputs are assumed in `[0, 1]`). -/
noncomputable def compute_empathy (S_OXTR phi_theta S_5HT1A : ℝ) : ℝ :=
  S_OXTR * phi_theta * S_5HT1A

/-- `compute_cognitive_rigidity = clamp01((S_NE_beta1 + S_DA_D2 - S_CB1 + 1) / 3)`. -/
noncomputable def compute_cognitive_rigidity (S_NE_beta1 S_DA_D2 S_CB1 : ℝ) : ℝ :=
  max 0 (min 1 ((S_NE_beta1 + S_DA_D2 - S_CB1 + 1) / 3))

/-- `compute_fatigue = clamp01((S_GABA_B + phi_delta) / 2)`. -/
noncomputable def compute_fatigue (S_GABA_B phi_delta : ℝ) : ℝ :=
  max 0 (min 1 ((S_GABA_B + phi_delta) / 2))

/-- `compute_precision = clamp01((S_NE_beta1 + S_DA_D2) * phi_beta / 2)`. -/
noncomputable def compute_precision (S_NE_beta1 S_DA_D2 phi_beta : ℝ) : ℝ :=
  max 0 (min 1 ((S_NE_beta1 + S_DA_D2) * phi_beta / 2))

/-- `compute_openness = clamp01((S_5HT2A + S_DA_D3 - S_5HT1A + 1) / 3)`. -/
noncomputable def compute_openness (S_5HT2A S_DA_D3 S_5HT1A : ℝ) : ℝ :=
  max 0 (min 1 ((S_5HT2A + S_DA_D3 - S_5HT1A + 1) / 3))

/-- `compute_anxiety = clamp01(((C_NE + C_CRH + C_cortisol) / 3 - S_GABA_A + 1) / 2)`. -/
noncomputable def compute_anxiety (C_NE C_CRH C_cortisol S_GABA_A : ℝ) : ℝ :=
  max 0 (min 1 (((C_NE + C_CRH + C_cortisol) / 3 - S_GABA_A + 1) / 2))

/-- `compute_social_engagement = clamp01((S_OXTR + S_DA_D3 - C_cortisol + 1) / 3)`. -/
noncomputable def compute_social_engagement (S_OXTR S_DA_D3 C_cortisol : ℝ) : ℝ :=
  max 0 (min 1 ((S_OXTR + S_DA_D3 - C_cortisol + 1) / 3))

/-- `compute_all_metrics(concentrations, receptor_saturations, oscillations)`:
look each input up with default `0.0` and apply the 8 formulas. -/
noncomputable def compute_all_metrics (concentrations receptor_saturations
    oscillations : List (String × ℝ)) : NeurochemicalMetrics :=
  let get_conc := fun (k : String) => dictGetD concentrations k 0
  let get_sat := fun (k : String) => dictGetD receptor_saturations k 0
  let get_osc := fun (k : String) => dictGetD oscillations k 0
  { motivation :=
      compute_motivation (get_sat "DA_D3") (get_sat "OXTR") (get_sat "GABA_B")
    empathy :=
      compute_empathy (get_sat "OXTR") (get_osc "theta") (get_sat "5HT_1A")
    cognitive_rigidity :=
      compute_cognitive_rigidity (get_sat "NE_beta1") (get_sat "DA_D2")
        (get_sat "CB1")
    fatigue := compute_fatigue (get_sat "GABA_B") (get_osc "delta")
    precision :=
      compute_precision (get_sat "NE_beta1") (get_sat "DA_D2") (get_osc "beta")
    openness :=
      compute_openness (get_sat "5HT_2A") (get_sat "DA_D3") (get_sat "5HT_1A")
    anxiety :=
      compute_anxiety (get_conc "NE") (get_conc "CRH") (get_conc "cortisol")
        (get_sat "GABA_A")
    social_engagement :=
      compute_social_engagement (get_sat "OXTR") (get_sat "DA_D3")
        (get_conc "cortisol") }

/-- C2 counterexample: with receptor saturations `OXTR = 2`, `5HT_1A = 2` and
oscillation amplitude `theta = 2` (out of the declared range), the empathy
metric returned by `compute_all_metrics` equals 8, which is not in `[0, 1]`:
not every metric is clamped. -/
theorem compute_all_metrics_empathy_escapes_unit_interval :
    (compute_all_metrics [] [("OXTR", 2), ("5HT_1A", 2)] [("theta", 2)]).empathy
        = 8 ∧
      ¬ (compute_all_metrics [] [("OXTR", 2), ("5HT_1A", 2)]
          [("theta", 2)]).empathy ≤ 1 := by
  have h : (compute_all_metrics [] [("OXTR", 2), ("5HT_1A", 2)]
      [("theta", 2)]).empathy = 8 := by
    simp [compute_all_metrics, compute_empathy, dictGetD, List.lookup]
    norm_num
  exact ⟨h, by rw [h]; norm_num⟩

/-- C2 as amended: for arbitrary input dictionaries (values allowed outside
`[0, 1]`), the seven metrics other than empathy always lie in `[0, 1]`;
empathy is returned unclamped as the raw product and lies in `[0, 1]` only
under the assumption that its three looked-up inputs do. -/
theorem compute_all_metrics_bounds (concentrations receptor_saturations
    oscillations : List (String × ℝ)) :
    (0 ≤ (compute_all_metrics concentrations receptor_saturations
        oscillations).motivation ∧
      (compute_all_metrics concentrations receptor_saturations
        oscillations).motivation ≤ 1) ∧
    (0 ≤ (compute_all_metrics concentrations receptor_saturations
        oscillations).cognitive_rigidity ∧
      (compute_all_metrics concentrations receptor_saturations
        oscillations).cognitive_rigidity ≤ 1) ∧
    (0 ≤ (compute_all_metrics concentrations receptor_saturations
        oscillations).fatigue ∧
      (compute_all_metrics concentrations receptor_saturations
        oscillations).fatigue ≤ 1) ∧
    (0 ≤ (compute_all_metrics concentrations receptor_saturations
        oscillations).precision ∧
      (compute_all_metrics concentrations receptor_saturations
        oscillations).precision ≤ 1) ∧
    (0 ≤ (compute_all_metrics concentrations receptor_saturations
        oscillations).openness ∧
      (compute_all_metrics concentrations receptor_saturations
        oscillations).openness ≤ 1) ∧
    (0 ≤ (compute_all_metrics concentrations receptor_saturations
        oscillations).anxiety ∧
      (compute_all_metrics concentrations receptor_saturations
        oscillations).anxiety ≤ 1) ∧
    (0 ≤ (compute_all_metrics concentrations receptor_saturations
        oscillations).social_engagement ∧
      (compute_all_metrics concentrations receptor_saturations
        oscillations).social_engagement ≤ 1) ∧
    ((compute_all_metrics concentrations receptor_saturations
        oscillations).empathy =
      dictGetD receptor_saturations "OXTR" 0 * dictGetD oscillations "theta" 0 *
        dictGetD receptor_saturations "5HT_1A" 0) ∧
    (0 ≤ dictGetD receptor_saturations "OXTR" 0 →
      dictGetD receptor_saturations "OXTR" 0 ≤ 1 →
      0 ≤ dictGetD oscillations "theta" 0 →
      dictGetD oscillations "theta" 0 ≤ 1 →
      0 ≤ dictGetD receptor_saturations "5HT_1A" 0 →
      dictGetD receptor_saturations "5HT_1A" 0 ≤ 1 →
      0 ≤ (compute_all_metrics concentrations receptor_saturations
          oscillations).empathy ∧
        (compute_all_metrics concentrations receptor_saturations
          oscillations).empathy ≤ 1) := by
  refine ⟨clamp01_mem _, clamp01_mem _, clamp01_mem _, clamp01_mem _,
    clamp01_mem _, clamp01_mem _, clamp01_mem _, rfl, ?_⟩
  intro h1 h2 h3 h4 h5 h6
  simp only [compute_all_metrics, compute_empathy]
  exact ⟨mul_nonneg (mul_nonneg h1 h3) h5,
    mul_le_one₀ (mul_le_one₀ h2 h3 h4) h5 h6⟩

/-! ## `zados/neurochem/stochastic_modulation/euler_maruyama.py`

The Brownian increment `dW` is `Optional` in the source: when absent the
function draws `random.gauss(0.0, sqrt(dt))`.  The embedding takes the drawn
value explicitly (`euler_maruyama_step`) or from a stream of drawn values
(`adaptive_step_euler_maruyama`), so every theorem quantifies over all
possible draws.  The recursive retry of the adaptive variant is given fuel;
`none` means the retry recursion did not finish within the fuel. -/

/-- `euler_maruyama_step(X, drift, diffusion, dt, dW) =
X + drift·dt + diffusion·dW`. -/
noncomputable def euler_maruyama_step (X drift diffusion dt dW : ℝ) : ℝ :=
  X + drift * dt + diffusion * dW

/-- `euler_maruyama_step_bounded(...)` in the absorbing mode
(`reflection=False`, the default and the only mode the engine and the claims
use): the unconstrained step clamped to `[lower_bound, upper_bound]`.
(The `reflection=True` branch, a reflecting `while` loop, is not modelled.) -/
noncomputable def euler_maruyama_step_bounded
    (X drift diffusion dt lower_bound upper_bound dW : ℝ) : ℝ :=
  max lower_bound (min upper_bound (euler_maruyama_step X drift diffusion dt dW))

/-- `adaptive_step_euler_maruyama(X, drift, diffusion, dt, tolerance, min_dt,
max_dt, dW)`: compare a full step against two half steps sharing the
increment split as `dW/sqrt(2)` twice; on acceptance return
`(X_full, min(max_dt, dt·1.5))`; otherwise retry recursively with
`max(min_dt, dt·0.5)` and a fresh draw.  `ws i` is the value
`random.gauss(0.0, sqrt(dt))` returns for the `i`-th draw. -/
noncomputable def adaptive_step_euler_maruyama :
    ℕ → ℝ → ℝ → ℝ → ℝ → ℝ → ℝ → ℝ → Option ℝ → (ℕ → ℝ) → ℕ → Option (ℝ × ℝ)
  | 0, _, _, _, _, _, _, _, _, _, _ => none
  | fuel + 1, X, drift, diffusion, dt, tolerance, min_dt, max_dt, dW, ws, i =>
      let w := dW.getD (ws i)
      let X_full := euler_maruyama_step X drift diffusion dt w
      let dW_half1 := w / Real.sqrt 2
      let dW_half2 := w / Real.sqrt 2
      let X_half1 := euler_maruyama_step X drift diffusion (dt / 2) dW_half1
      let X_half2 := euler_maruyama_step X_half1 drift diffusion (dt / 2) dW_half2
      if |X_full - X_half2| < tolerance then
        some (X_full, min max_dt (dt * 1.5))
      else
        adaptive_step_euler_maruyama fuel X drift diffusion
          (max min_dt (dt * 0.5)) tolerance min_dt max_dt none ws (i + 1)

/-- C6: for every current state, drift, diffusion, step size, Brownian
increment, and bounds `lower_bound ≤ upper_bound`, the absorbing bounded
Euler–Maruyama step is the unconstrained value `X + drift·dt + diffusion·dW`
clamped to the interval, and it lies within `[lower_bound, upper_bound]`. -/
theorem euler_maruyama_step_bounded_within_bounds
    (X drift diffusion dt lower_bound upper_bound dW : ℝ)
    (h : lower_bound ≤ upper_bound) :
    euler_maruyama_step_bounded X drift diffusion dt lower_bound upper_bound dW
        = max lower_bound (min upper_bound (X + drift * dt + diffusion * dW)) ∧
      lower_bound ≤
        euler_maruyama_step_bounded X drift diffusion dt lower_bound
          upper_bound dW ∧
      euler_maruyama_step_bounded X drift diffusion dt lower_bound upper_bound
          dW ≤ upper_bound :=
  ⟨rfl, le_max_left _ _, max_le h (min_le_left _ _)⟩

/-- Witness for C6 at a concrete out-of-interval unconstrained value. -/
theorem euler_maruyama_step_bounded_within_bounds_witness :
    euler_maruyama_step_bounded 5 1 2 1 0 1 3
        = max 0 (min 1 ((5 : ℝ) + 1 * 1 + 2 * 3)) ∧
      (0 : ℝ) ≤ euler_maruyama_step_bounded 5 1 2 1 0 1 3 ∧
      euler_maruyama_step_bounded 5 1 2 1 0 1 3 ≤ 1 :=
  euler_maruyama_step_bounded_within_bounds 5 1 2 1 0 1 3 (by norm_num)

/-- C5 counterexample: with proposed `dt = 10⁻⁹` below `min_dt = 10⁻⁶`
(`tolerance = 10⁻³`, `max_dt = 1`, zero drift, diffusion and increment) the
first step is accepted and the returned step size is
`min(max_dt, dt·1.5) = 1.5·10⁻⁹`, which is below `min_dt`: the accepted step
size is not always within `[min_dt, max_dt]`. -/
theorem adaptive_step_returns_dt_below_min_dt :
    adaptive_step_euler_maruyama 1 0 0 0 (1 / 1000000000) (1 / 1000)
        (1 / 1000000) 1 (some 0) (fun _ => 0) 0
      = some (0, 3 / 2000000000) ∧
      (3 / 2000000000 : ℝ) < 1 / 1000000 := by
  constructor
  · simp only [adaptive_step_euler_maruyama, euler_maruyama_step, Option.getD]
    norm_num
  · norm_num

/-- C5 as amended: whenever `0 < min_dt ≤ max_dt` and the *proposed* step
size is at least `min_dt`, every accepted step size the adaptive integrator
returns (for any state, drift, diffusion, tolerance, supplied increment and
draw stream, and any retry depth that terminates) lies within
`[min_dt, max_dt]`: acceptance grows `dt` by ×1.5 capped at `max_dt`, and
rejection shrinks it by ×0.5 floored at `min_dt` before the recursive retry.
A proposed `dt` below `min_dt / 1.5` that is accepted immediately escapes the
interval, so the restriction `min_dt ≤ dt` on the proposed step is needed. -/
theorem adaptive_step_accepted_dt_within_bounds
    (fuel : ℕ) (X drift diffusion tolerance min_dt max_dt : ℝ)
    (h1 : 0 < min_dt) (h2 : min_dt ≤ max_dt) :
    ∀ dt : ℝ, min_dt ≤ dt →
      ∀ (dW : Option ℝ) (ws : ℕ → ℝ) (i : ℕ) (X' dt' : ℝ),
        adaptive_step_euler_maruyama fuel X drift diffusion dt tolerance
            min_dt max_dt dW ws i = some (X', dt') →
          min_dt ≤ dt' ∧ dt' ≤ max_dt := by
  induction fuel with
  | zero =>
      intro dt _ dW ws i X' dt' h
      simp [adaptive_step_euler_maruyama] at h
  | succ n ih =>
      intro dt hdt dW ws i X' dt' h
      simp only [adaptive_step_euler_maruyama] at h
      split at h
      · rw [Option.some_inj, Prod.mk.injEq] at h
        rcases h with ⟨_, h⟩
        subst h
        refine ⟨le_min h2 (le_trans hdt ?_), min_le_left _ _⟩
        nlinarith [lt_of_lt_of_le h1 hdt]
      · exact ih (max min_dt (dt * 0.5)) (le_max_left _ _) none ws (i + 1)
          X' dt' h

/-- Witness for C5's amended theorem: an accepted concrete step with
`min_dt = 1 ≤ dt = 1 ≤ max_dt = 2` returns step size `1.5 ∈ [1, 2]`. -/
theorem adaptive_step_accepted_dt_within_bounds_witness :
    (1 : ℝ) ≤ 3 / 2 ∧ (3 / 2 : ℝ) ≤ 2 :=
  adaptive_step_accepted_dt_within_bounds 1 0 0 0 1 1 2 (by norm_num)
    (by norm_num) 1 (by norm_num) (some 0) (fun _ => 0) 0 0 (3 / 2)
    (by
      simp only [adaptive_step_euler_maruyama, euler_maruyama_step, Option.getD]
      norm_num)

/-! ## `zados/neurochem/kinetics/mass_balance.py` -/

/-- `compute_reuptake_loss = u_base · eta_u · C`. -/
noncomputable def compute_reuptake_loss (C eta_u u_base : ℝ) : ℝ :=
  u_base * eta_u * C

/-- `compute_degradation_loss = d_base · C`. -/
noncomputable def compute_degradation_loss (C d_base : ℝ) : ℝ := d_base * C

/-- `compute_clearance_loss = c_base · C`. -/
noncomputable def compute_clearance_loss (C c_base : ℝ) : ℝ := c_base * C

/-- `compute_total_loss`: sum of the three loss mechanisms. -/
noncomputable def compute_total_loss (C eta_u u_base d_base c_base : ℝ) : ℝ :=
  compute_reuptake_loss C eta_u u_base + compute_degradation_loss C d_base +
    compute_clearance_loss C c_base

/-- `compute_drift_term = -theta·(C - C_baseline) - total_loss`. -/
noncomputable def compute_drift_term
    (C C_baseline theta eta_u u_base d_base c_base : ℝ) : ℝ :=
  -theta * (C - C_baseline) + -compute_total_loss C eta_u u_base d_base c_base

/-- `compute_diffusion_term`: `sigma·sqrt(max(0, C))` when multiplicative,
else the constant `sigma`. -/
noncomputable def compute_diffusion_term (C sigma : ℝ)
    (multiplicative : Bool) : ℝ :=
  if multiplicative then sigma * Real.sqrt (max 0 C) else sigma

/-- `compute_effective_reversion_rate = max(0, theta_base·(1 - fatigue_scaling·F))`. -/
noncomputable def compute_effective_reversion_rate
    (theta_base fatigue fatigue_scaling : ℝ) : ℝ :=
  max 0 (theta_base * (1 - fatigue_scaling * fatigue))

/-! ## `zados/neurochem/kinetics/release_drives.py` (the functions the engine
calls in its modulation branch) -/

/-- `compute_combined_release_drive = baseline + novelty + rpe + effort`. -/
noncomputable def compute_combined_release_drive
    (novelty_drive rpe_drive effort_drive baseline_release : ℝ) : ℝ :=
  baseline_release + novelty_drive + rpe_drive + effort_drive

/-- `apply_fatigue_gating`: unchanged below the fatigue threshold; above it,
scaled by `max(0, 1 - suppression·(F - threshold)/(1 - threshold))`. -/
noncomputable def apply_fatigue_gating
    (release_drive fatigue fatigue_threshold suppression_factor : ℝ) : ℝ :=
  if fatigue ≤ fatigue_threshold then release_drive
  else
    release_drive *
      max 0 (1 - suppression_factor * (fatigue - fatigue_threshold) /
        (1 - fatigue_threshold))

/-- `apply_oscillatory_gating = drive · (1 + band_preference · amplitude)`. -/
noncomputable def apply_oscillatory_gating
    (release_drive oscillation_amplitude band_preference : ℝ) : ℝ :=
  release_drive * (1 + band_preference * oscillation_amplitude)

/-- `compute_phasic_burst_amplitude`: 0 for non-positive drive, else the
saturating `max_burst·(1 - exp(-sensitivity·drive))`. -/
noncomputable def compute_phasic_burst_amplitude
    (release_drive receptor_sensitivity max_burst : ℝ) : ℝ :=
  if release_drive ≤ 0 then 0
  else max_burst * (1 - Real.exp (-receptor_sensitivity * release_drive))

/-! ## `zados/neurochem/core/engine.py` — `step`

`_update_neurotransmitter` mutates `self.registry` in place; the embedding
threads the registry explicitly through the per-neurotransmitter loop.  The
two bounded integration calls pass `dW=None`, so each draws one Brownian
increment; the embedding takes the pair of drawn values per
neurotransmitter from `draws`. -/

namespace NeurochemicalEngine

/-- `_update_neurotransmitter(nt_name, modulation_signals)` acting on a
registry, with the two Brownian increments the bounded steps draw. -/
noncomputable def update_neurotransmitter (reg : NeurochemicalRegistry)
    (dt : ℝ) (nt_name : String) (nt_signals : List (String × ℝ))
    (dW_tonic dW_phasic : ℝ) : Except PyError NeurochemicalRegistry := do
  let state ← reg.get_neurotransmitter nt_name
  let config ← reg.get_config nt_name
  let C_baseline := dictGetD config "C_baseline" 0.5
  let theta_tonic := dictGetD config "theta_tonic" 0.1
  let theta_phasic := dictGetD config "theta_phasic" 1.0
  let sigma_tonic := dictGetD config "sigma_tonic" 0.05
  let sigma_phasic := dictGetD config "sigma_phasic" 0.1
  let u_base := dictGetD config "u_base" 0.1
  let d_base := dictGetD config "d_base" 0.05
  let c_base := dictGetD config "c_base" 0.02
  let theta_tonic_eff := compute_effective_reversion_rate theta_tonic state.F 0.5
  let theta_phasic_eff := compute_effective_reversion_rate theta_phasic state.F 0.3
  let drift_tonic := compute_drift_term state.C_tonic C_baseline theta_tonic_eff
    state.eta_u u_base d_base c_base
  let drift_phasic_base := compute_drift_term state.C_phasic 0 theta_phasic_eff
    state.eta_u u_base d_base c_base
  let drift_phasic :=
    if nt_signals.isEmpty then drift_phasic_base
    else
      let novelty := dictGetD nt_signals "novelty" 0
      let rpe := dictGetD nt_signals "rpe" 0
      let effort := dictGetD nt_signals "effort" 0
      let release_drive0 := compute_combined_release_drive novelty rpe effort 0
      let release_drive1 := apply_fatigue_gating release_drive0 state.F 0.7 0.5
      let release_drive2 :=
        match reg.get_oscillations with
        | some osc => apply_oscillatory_gating release_drive1 osc.theta 0.3
        | none => release_drive1
      let burst_amplitude := compute_phasic_burst_amplitude release_drive2 2 1
      drift_phasic_base + burst_amplitude / dt
  let diffusion_tonic := compute_diffusion_term state.C_tonic sigma_tonic true
  let diffusion_phasic := compute_diffusion_term state.C_phasic sigma_phasic true
  let C_tonic_new := euler_maruyama_step_bounded state.C_tonic drift_tonic
    diffusion_tonic dt 0 1 dW_tonic
  let C_phasic_new := euler_maruyama_step_bounded state.C_phasic drift_phasic
    diffusion_phasic dt 0 1 dW_phasic
  let F_new := max 0 (min 1 (state.F + 0.001 * dt))
  let eta_u_new := state.eta_u
  let new_state := NeurotransmitterState.ofRaw C_tonic_new C_phasic_new F_new
    eta_u_new
  pure (reg.register_neurotransmitter nt_name new_state (some config))

/-- `step(modulation_signals)`: update every neurotransmitter in registry
iteration order, run the (no-op) receptor update hook, advance the clock.
`draws nt` is the pair of Brownian increments drawn for that
neurotransmitter's tonic and phasic bounded steps. -/
noncomputable def step (e : NeurochemicalEngine)
    (modulation_signals : List (String × List (String × ℝ)))
    (draws : String → ℝ × ℝ) : Except PyError NeurochemicalEngine := do
  let reg ← e.registry.neurotransmitter_names.foldlM
    (fun reg nt_name =>
      update_neurotransmitter reg e.dt nt_name
        (dictGetD modulation_signals nt_name []) (draws nt_name).1
        (draws nt_name).2)
    e.registry
  pure { e with registry := reg, current_time := e.current_time + e.dt }

end NeurochemicalEngine

/-! ## The C4 scenario: registry with `DA` only
(`C_tonic=0.6, C_phasic=0, F=0, eta_u=1`), default kinetic constants,
`dt=0.01`, one `step({})`. -/

/-- The engine after
`NeurochemicalEngine(dt=0.01).add_neurotransmitter("DA", NeurotransmitterState(C_tonic=0.6, C_phasic=0.0, F=0, eta_u=1))`. -/
noncomputable def daScenarioEngine : NeurochemicalEngine :=
  NeurochemicalEngine.init.add_neurotransmitter "DA"
    (some (NeurotransmitterState.ofRaw 0.6 0 0 1)) none

/-- The `DA` state after one `step({})` of the scenario engine, the two
Brownian increments drawn during the step made explicit.  (The junk default
is never reached: the step succeeds.) -/
noncomputable def daScenarioAfter (dW_tonic dW_phasic : ℝ) :
    NeurotransmitterState :=
  match daScenarioEngine.step [] (fun _ => (dW_tonic, dW_phasic)) with
  | Except.ok e =>
      (e.registry.neurotransmitters.lookup "DA").getD
        (NeurotransmitterState.mk 0 0 0 0)
  | Except.error _ => NeurotransmitterState.mk 0 0 0 0

theorem daScenario_components (dW_tonic dW_phasic : ℝ) :
    (daScenarioAfter dW_tonic dW_phasic).C_tonic =
        max 0 (min 1 (0.59888 + 0.05 * Real.sqrt 0.6 * dW_tonic)) ∧
      (daScenarioAfter dW_tonic dW_phasic).C_phasic = 0 := by
  have h1 : NeurotransmitterState.ofRaw 0.6 0 0 1 =
      NeurotransmitterState.mk 0.6 0 0 1 := by
    simp [NeurotransmitterState.ofRaw, max_def, min_def]
    norm_num
  have h2 : daScenarioEngine =
      ⟨⟨[("DA", NeurotransmitterState.mk 0.6 0 0 1)], [], none, [("DA", [])]⟩,
        0, 0.01⟩ := by
    simp [daScenarioEngine, NeurochemicalEngine.init,
      NeurochemicalEngine.add_neurotransmitter, NeurochemicalRegistry.init,
      NeurochemicalRegistry.register_neurotransmitter, dictSet, h1]
  rw [daScenarioAfter, h2]
  simp only [NeurochemicalEngine.step, NeurochemicalEngine.update_neurotransmitter,
    NeurochemicalRegistry.neurotransmitter_names,
    NeurochemicalRegistry.get_neurotransmitter, NeurochemicalRegistry.get_config,
    NeurochemicalRegistry.register_neurotransmitter,
    NeurochemicalRegistry.get_oscillations, euler_maruyama_step_bounded,
    euler_maruyama_step, compute_drift_term, compute_total_loss,
    compute_reuptake_loss, compute_degradation_loss, compute_clearance_loss,
    compute_diffusion_term, compute_effective_reversion_rate, dictGetD, dictSet,
    NeurotransmitterState.ofRaw, List.foldlM, List.lookup, List.map,
    bind, Except.bind, pure, Except.pure]
  norm_num [max_def, min_def]
  intro h
  split_ifs at h <;> linarith

theorem sqrt_point_six_bounds :
    Real.sqrt 0.6 < 0.8 ∧ 0.7 < Real.sqrt 0.6 := by
  have h0 : Real.sqrt 0.6 ^ 2 = 0.6 := Real.sq_sqrt (by norm_num)
  have hnn : 0 ≤ Real.sqrt 0.6 := Real.sqrt_nonneg 0.6
  constructor <;> nlinarith

/-- C4 counterexample: in the specified scenario, a step whose tonic Brownian
increment is `dW = 1` (a value the `N(0, sqrt(dt))` draw can produce) yields
`C_tonic = 0.59888 + 0.05·sqrt(0.6) > 0.6`, so the new `C_tonic` is *not*
strictly between 0 and 0.6 for every Brownian increment. -/
theorem da_step_tonic_can_exceed_upper :
    0.6 < (daScenarioAfter 1 0).C_tonic ∧
      ¬ (0 < (daScenarioAfter 1 0).C_tonic ∧
          (daScenarioAfter 1 0).C_tonic < 0.6) := by
  have hc := (daScenario_components 1 0).1
  obtain ⟨hlt, hgt⟩ := sqrt_point_six_bounds
  have hnn : 0 ≤ Real.sqrt 0.6 := Real.sqrt_nonneg 0.6
  have hv1 : (0.59888 + 0.05 * Real.sqrt 0.6 * 1 : ℝ) ≤ 1 := by nlinarith
  have hv0 : (0 : ℝ) ≤ 0.59888 + 0.05 * Real.sqrt 0.6 * 1 := by nlinarith
  rw [hc, min_eq_right hv1, max_eq_right hv0]
  constructor
  · nlinarith
  · rintro ⟨-, habs⟩
    nlinarith

/-- C4 as amended: in the specified scenario (`DA` with `C_tonic=0.6,
C_phasic=0, F=0, eta_u=1`, default kinetic constants, `dt=0.01`), one
`step({})` leaves `C_phasic` exactly 0 for *every* pair of Brownian
increments, and yields `C_tonic` strictly between 0 and 0.6 for every tonic
increment of magnitude at most `0.02` (in particular for the
noise-free step); an unboundedly large increment can push `C_tonic` above
0.6, so the restriction on the increment is needed. -/
theorem da_scenario_step_decays_tonic (dW_tonic dW_phasic : ℝ)
    (h : |dW_tonic| ≤ 1 / 50) :
    0 < (daScenarioAfter dW_tonic dW_phasic).C_tonic ∧
      (daScenarioAfter dW_tonic dW_phasic).C_tonic < 0.6 ∧
      (daScenarioAfter dW_tonic dW_phasic).C_phasic = 0 := by
  obtain ⟨hc, hp⟩ := daScenario_components dW_tonic dW_phasic
  obtain ⟨hlt, hgt⟩ := sqrt_point_six_bounds
  have hnn : 0 ≤ Real.sqrt 0.6 := Real.sqrt_nonneg 0.6
  obtain ⟨hd1, hd2⟩ := abs_le.mp h
  have hint1 : 0 ≤ Real.sqrt 0.6 * (1 / 50 - dW_tonic) :=
    mul_nonneg hnn (by linarith)
  have hint2 : 0 ≤ Real.sqrt 0.6 * (dW_tonic + 1 / 50) :=
    mul_nonneg hnn (by linarith)
  have hv1 : (0.59888 + 0.05 * Real.sqrt 0.6 * dW_tonic : ℝ) ≤ 1 := by nlinarith
  have hv0 : (0 : ℝ) ≤ 0.59888 + 0.05 * Real.sqrt 0.6 * dW_tonic := by nlinarith
  rw [hc, min_eq_right hv1, max_eq_right hv0]
  refine ⟨by nlinarith, by nlinarith, hp⟩

/-- Witness for C4's amended theorem at the noise-free increments. -/
theorem da_scenario_step_decays_tonic_witness :
    0 < (daScenarioAfter 0 0).C_tonic ∧
      (daScenarioAfter 0 0).C_tonic < 0.6 ∧
      (daScenarioAfter 0 0).C_phasic = 0 :=
  da_scenario_step_decays_tonic 0 0 (by norm_num)

/-! ## `zados/neurochem/neurosymbolic/readout.py` and
`NeurochemicalEngine.get_neurosymbolic_readout` -/

/-- `receptor_id.split("_")[0]`: the neurotransmitter inferred from the id
prefix before the first underscore. -/
def ntNameOfReceptorId (rid : String) : String :=
  String.mk (rid.toList.takeWhile (fun c => c ≠ '_'))

/-- `extract_concentrations`: name → total concentration `C`. -/
noncomputable def extract_concentrations
    (nts : List (String × NeurotransmitterState)) : List (String × ℝ) :=
  nts.map (fun p => (p.1, p.2.C))

/-- `extract_receptor_saturations`: saturation per receptor; 0 when the
inferred neurotransmitter is absent; `K_d` from the receptor's config when
the config dict is truthy (non-empty) and has the id, else the default 0.5. -/
noncomputable def extract_receptor_saturations
    (rs : List (String × ReceptorState))
    (nts : List (String × NeurotransmitterState))
    (rcfg : List (String × NTConfig)) : List (String × ℝ) :=
  rs.map (fun p =>
    match nts.lookup (ntNameOfReceptorId p.1) with
    | none => (p.1, 0)
    | some st =>
        let K_d : ℝ :=
          if rcfg.isEmpty then 0.5
          else
            match rcfg.lookup p.1 with
            | some c => dictGetD c "K_d" 0.5
            | none => 0.5
        (p.1, p.2.saturation st.C K_d))

/-- `extract_oscillation_amplitudes`: band name → amplitude. -/
noncomputable def extract_oscillation_amplitudes (osc : OscillationState) :
    List (String × ℝ) :=
  [("delta", osc.delta), ("theta", osc.theta), ("alpha", osc.alpha),
    ("beta", osc.beta), ("gamma", osc.gamma)]

/-- `compute_neurosymbolic_readout`: extract the three input dictionaries and
apply `compute_all_metrics`.  When the oscillation state is `None`, the
attribute accesses inside `extract_oscillation_amplitudes` raise
`AttributeError`. -/
noncomputable def compute_neurosymbolic_readout
    (nts : List (String × NeurotransmitterState))
    (rs : List (String × ReceptorState)) (osc : Option OscillationState)
    (rcfg : List (String × NTConfig)) : Except PyError NeurochemicalMetrics :=
  let concentrations := extract_concentrations nts
  let saturations := extract_receptor_saturations rs nts rcfg
  match osc with
  | none => Except.error PyError.attributeError
  | some o =>
      Except.ok (compute_all_metrics concentrations saturations
        (extract_oscillation_amplitudes o))

/-- The engine's first readout loop: collect every registered
neurotransmitter state through `get_neurotransmitter`. -/
def collect_nt_states (reg : NeurochemicalRegistry) :
    List String → List (String × NeurotransmitterState) →
      Except PyError (List (String × NeurotransmitterState))
  | [], acc => Except.ok acc
  | n :: rest, acc => do
      let s ← reg.get_neurotransmitter n
      collect_nt_states reg rest (dictSet acc n s)

/-- The engine's second readout loop: collect every registered receptor's
state through `get_receptor` and its `{"K_d": config.get("K_d", 0.5)}`
through `get_config`. -/
def collect_receptor_states (reg : NeurochemicalRegistry) :
    List String →
      List (String × ReceptorState) × List (String × NTConfig) →
      Except PyError
        (List (String × ReceptorState) × List (String × NTConfig))
  | [], acc => Except.ok acc
  | rid :: rest, acc => do
      let st ← reg.get_receptor rid
      let config ← reg.get_config rid
      let K_d := dictGetD config "K_d" 0.5
      collect_receptor_states reg rest
        (dictSet acc.1 rid st, dictSet acc.2 rid [("K_d", K_d)])

/-- `get_neurosymbolic_readout()`: collect neurotransmitter states, receptor
states and configs, the oscillation state, and compute the metrics.  (The
final `metrics.as_dict()` is a field-by-field export and is left as the
metrics record.) -/
noncomputable def NeurochemicalEngine.get_neurosymbolic_readout
    (e : NeurochemicalEngine) : Except PyError NeurochemicalMetrics := do
  let nts ← collect_nt_states e.registry e.registry.neurotransmitter_names []
  let rp ← collect_receptor_states e.registry e.registry.receptor_ids ([], [])
  compute_neurosymbolic_readout nts rp.1 e.registry.get_oscillations rp.2

theorem keys_lookup_isSome {α : Type} (l : List (String × α)) (k : String)
    (h : k ∈ l.map Prod.fst) : (l.lookup k).isSome := by
  induction l with
  | nil => simp at h
  | cons p rest ih =>
      obtain ⟨k', v⟩ := p
      simp only [List.map_cons, List.mem_cons] at h
      by_cases hk : k = k'
      · have hb : (k == k') = true := beq_iff_eq.mpr hk
        simp [List.lookup, hb]
      · have hb : (k == k') = false := beq_eq_false_iff_ne.mpr hk
        rcases h with h | h
        · exact absurd h hk
        · simpa [List.lookup, hb] using ih h

theorem collect_nt_states_ok (reg : NeurochemicalRegistry) :
    ∀ (names : List String) (acc : List (String × NeurotransmitterState)),
      (∀ n ∈ names, (reg.neurotransmitters.lookup n).isSome) →
      ∃ r, collect_nt_states reg names acc = Except.ok r := by
  intro names
  induction names with
  | nil => exact fun acc _ => ⟨acc, rfl⟩
  | cons n rest ih =>
      intro acc h
      obtain ⟨s, hs⟩ := Option.isSome_iff_exists.mp (h n (by simp))
      obtain ⟨r, hr⟩ := ih (dictSet acc n s) (fun x hx => h x (by simp [hx]))
      exact ⟨r, by
        simp [collect_nt_states, NeurochemicalRegistry.get_neurotransmitter,
          hs, bind, Except.bind, hr]⟩

theorem collect_receptor_states_keyerror (reg : NeurochemicalRegistry) :
    ∀ (rids : List String)
      (acc : List (String × ReceptorState) × List (String × NTConfig)),
      (∀ rid ∈ rids, (reg.receptors.lookup rid).isSome) →
      (∃ rid ∈ rids, reg.configs.lookup rid = none) →
      ∃ k, collect_receptor_states reg rids acc =
        Except.error (PyError.keyError k) := by
  intro rids
  induction rids with
  | nil => rintro acc _ ⟨rid, hmem, -⟩; simp at hmem
  | cons rid rest ih =>
      rintro acc hall ⟨r0, hmem, hnone⟩
      obtain ⟨st, hst⟩ := Option.isSome_iff_exists.mp (hall rid (by simp))
      by_cases hc : reg.configs.lookup rid = none
      · exact ⟨rid, by
          simp [collect_receptor_states, NeurochemicalRegistry.get_receptor,
            NeurochemicalRegistry.get_config, hst, hc, bind, Except.bind]⟩
      · obtain ⟨c, hcc⟩ := Option.ne_none_iff_exists'.mp hc
        have hr0 : r0 ∈ rest := by
          rcases List.mem_cons.mp hmem with h | h
          · exact absurd (h ▸ hnone) (h ▸ hc)
          · exact h
        obtain ⟨k, hk⟩ := ih
          (dictSet acc.1 rid st, dictSet acc.2 rid
            [("K_d", dictGetD c "K_d" 0.5)])
          (fun x hx => hall x (by simp [hx])) ⟨r0, hr0, hnone⟩
        exact ⟨k, by
          simp [collect_receptor_states, NeurochemicalRegistry.get_receptor,
            NeurochemicalRegistry.get_config, hst, hcc, bind, Except.bind, hk]⟩

/-- C10: whenever some registered receptor id has no entry in the config map
— the state `register_receptor` produces, since it never stores a config —
`get_neurosymbolic_readout` raises `KeyError` instead of returning metrics;
consequently a successful readout requires every registered receptor id to
have a config entry; and `register_receptor` indeed leaves the config map
untouched. -/
theorem readout_requires_receptor_configs (e : NeurochemicalEngine) :
    ((∃ rid ∈ e.registry.receptor_ids,
        e.registry.configs.lookup rid = none) →
      ∃ k, e.get_neurosymbolic_readout = Except.error (PyError.keyError k)) ∧
    (∀ m, e.get_neurosymbolic_readout = Except.ok m →
      ∀ rid ∈ e.registry.receptor_ids,
        (e.registry.configs.lookup rid).isSome) ∧
    (∀ (reg : NeurochemicalRegistry) (rid : String) (st : ReceptorState),
      (reg.register_receptor rid st).configs = reg.configs) := by
  have main : (∃ rid ∈ e.registry.receptor_ids,
      e.registry.configs.lookup rid = none) →
      ∃ k, e.get_neurosymbolic_readout =
        Except.error (PyError.keyError k) := by
    rintro ⟨rid, hmem, hnone⟩
    obtain ⟨nts, hnts⟩ := collect_nt_states_ok e.registry
      e.registry.neurotransmitter_names []
      (fun n hn => keys_lookup_isSome _ _ hn)
    obtain ⟨k, hk⟩ := collect_receptor_states_keyerror e.registry
      e.registry.receptor_ids ([], [])
      (fun r hr => keys_lookup_isSome _ _ hr) ⟨rid, hmem, hnone⟩
    exact ⟨k, by
      simp [NeurochemicalEngine.get_neurosymbolic_readout, hnts, hk, bind,
        Except.bind]⟩
  refine ⟨main, ?_, fun reg rid st => rfl⟩
  intro m hm rid hmem
  by_contra hns
  obtain ⟨k, hk⟩ := main ⟨rid, hmem, Option.not_isSome_iff_eq_none.mp hns⟩
  rw [hm] at hk
  exact Except.noConfusion hk

/-! ## `zados/neurochem/neurosymbolic/tags.py`

Python strings are sequences of Unicode code points; they are modelled as
`List Char`, and the string operations `parse_neurosymbolic_triplet` uses
(`split`, `split` with `maxsplit=1`, `strip`, `rstrip`, `in`) are defined
with Python's semantics on those lists.  Both braces are written
`Char.ofNat` to keep them out of literals. -/

/-- The character `\x7b`. -/
def openBrace : Char := Char.ofNat 123

/-- The character `\x7d`. -/
def closeBrace : Char := Char.ofNat 125

/-- Python `s.split(sep)` for a one-character separator (accumulator form). -/
def pySplitAllAux (sep : Char) : List Char → List Char → List (List Char)
  | [], acc => [acc.reverse]
  | c :: rest, acc =>
      if c = sep then acc.reverse :: pySplitAllAux sep rest []
      else pySplitAllAux sep rest (c :: acc)

/-- Python `s.split(sep)`: split at every occurrence, keeping empty parts. -/
def pySplitAll (sep : Char) (s : List Char) : List (List Char) :=
  pySplitAllAux sep s []

/-- Python `s.split(sep, 1)` (accumulator form). -/
def pySplitOnceAux (sep : Char) : List Char → List Char → List (List Char)
  | [], acc => [acc.reverse]
  | c :: rest, acc =>
      if c = sep then [acc.reverse, rest]
      else pySplitOnceAux sep rest (c :: acc)

/-- Python `s.split(sep, 1)`: at most one split, at the first occurrence. -/
def pySplitOnce (sep : Char) (s : List Char) : List (List Char) :=
  pySplitOnceAux sep s []

/-- Python `s.rstrip(c)` for a one-character strip set. -/
def pyRstrip (c : Char) (s : List Char) : List Char :=
  (s.reverse.dropWhile (fun x => x = c)).reverse

/-- Python `s.strip()`: remove leading and trailing whitespace. -/
def pyStrip (s : List Char) : List Char :=
  ((s.dropWhile Char.isWhitespace).reverse.dropWhile Char.isWhitespace).reverse

/-- `NeurotransmitterTag` (the enum member names, used by the encoder). -/
inductive NeurotransmitterTag where
  | DA | GABA | GLU | SEROTONIN | NE | ACH | OXT | MOR | CB1 | CRH
  | CORTISOL | HISTAMINE
  deriving DecidableEq, Fintype

/-- `neurotransmitter.name`: the enum member's name. -/
def NeurotransmitterTag.pyName : NeurotransmitterTag → List Char
  | .DA => "DA".toList
  | .GABA => "GABA".toList
  | .GLU => "GLU".toList
  | .SEROTONIN => "SEROTONIN".toList
  | .NE => "NE".toList
  | .ACH => "ACH".toList
  | .OXT => "OXT".toList
  | .MOR => "MOR".toList
  | .CB1 => "CB1".toList
  | .CRH => "CRH".toList
  | .CORTISOL => "CORTISOL".toList
  | .HISTAMINE => "HISTAMINE".toList

/-- `ReceptorTag` (the enum member values carry the receptor ids). -/
inductive ReceptorTag where
  | DA_D1 | DA_D2 | DA_D3 | DA_D4 | DA_D5
  | GABA_A | GABA_B
  | GLU_NMDA | GLU_AMPA | GLU_KAINATE | GLU_mGluR
  | SEROTONIN_1A | SEROTONIN_1B | SEROTONIN_2A | SEROTONIN_2C | SEROTONIN_3
  | NE_ALPHA1 | NE_ALPHA2 | NE_BETA1 | NE_BETA2
  | ACH_NICOTINIC | ACH_MUSCARINIC
  | OXTR
  | MOR_MU
  | CB1_RECEPTOR
  | CRH_R1
  deriving DecidableEq, Fintype

/-- `receptor.value`. -/
def ReceptorTag.value : ReceptorTag → List Char
  | .DA_D1 => "DA_D1".toList
  | .DA_D2 => "DA_D2".toList
  | .DA_D3 => "DA_D3".toList
  | .DA_D4 => "DA_D4".toList
  | .DA_D5 => "DA_D5".toList
  | .GABA_A => "GABA_A".toList
  | .GABA_B => "GABA_B".toList
  | .GLU_NMDA => "GLU_NMDA".toList
  | .GLU_AMPA => "GLU_AMPA".toList
  | .GLU_KAINATE => "GLU_KAINATE".toList
  | .GLU_mGluR => "GLU_mGluR".toList
  | .SEROTONIN_1A => "5HT_1A".toList
  | .SEROTONIN_1B => "5HT_1B".toList
  | .SEROTONIN_2A => "5HT_2A".toList
  | .SEROTONIN_2C => "5HT_2C".toList
  | .SEROTONIN_3 => "5HT_3".toList
  | .NE_ALPHA1 => "NE_alpha1".toList
  | .NE_ALPHA2 => "NE_alpha2".toList
  | .NE_BETA1 => "NE_beta1".toList
  | .NE_BETA2 => "NE_beta2".toList
  | .ACH_NICOTINIC => "ACh_nicotinic".toList
  | .ACH_MUSCARINIC => "ACh_muscarinic".toList
  | .OXTR => "OXTR".toList
  | .MOR_MU => "MOR_mu".toList
  | .CB1_RECEPTOR => "CB1".toList
  | .CRH_R1 => "CRH_R1".toList

/-- `receptor.value.split("_")[-1]`: the short receptor name the encoder
writes. -/
def receptorShort (r : ReceptorTag) : List Char :=
  (pySplitAll '_' r.value).getLastD []

/-- `OscillationBandTag`. -/
inductive OscillationBandTag where
  | DELTA | THETA | ALPHA | BETA | GAMMA
  deriving DecidableEq, Fintype

/-- `band.value`. -/
def OscillationBandTag.value : OscillationBandTag → List Char
  | .DELTA => "delta".toList
  | .THETA => "theta".toList
  | .ALPHA => "alpha".toList
  | .BETA => "beta".toList
  | .GAMMA => "gamma".toList

/-- `ModifierTag` (the enum member values carry the modifier text). -/
inductive ModifierTag where
  | UP_DENSITY | DOWN_DENSITY
  | UP_SENSITIVITY | DOWN_SENSITIVITY
  | DESENSITIZED | INTERNALIZED | UPREGULATED | ACTIVE
  | UP_AFFINITY | DOWN_AFFINITY
  | UP_RELEASE | DOWN_RELEASE
  | UP_REUPTAKE | DOWN_REUPTAKE
  deriving DecidableEq, Fintype

/-- `modifier.value`. -/
def ModifierTag.value : ModifierTag → List Char
  | .UP_DENSITY => "↑density".toList
  | .DOWN_DENSITY => "↓density".toList
  | .UP_SENSITIVITY => "↑sensitivity".toList
  | .DOWN_SENSITIVITY => "↓sensitivity".toList
  | .DESENSITIZED => "desensitized".toList
  | .INTERNALIZED => "internalized".toList
  | .UPREGULATED => "upregulated".toList
  | .ACTIVE => "active".toList
  | .UP_AFFINITY => "↑affinity".toList
  | .DOWN_AFFINITY => "↓affinity".toList
  | .UP_RELEASE => "↑release".toList
  | .DOWN_RELEASE => "↓release".toList
  | .UP_REUPTAKE => "↑reuptake".toList
  | .DOWN_REUPTAKE => "↓reuptake".toList

/-- `encode_neurosymbolic_triplet`: `NT→R:M`, wrapped as `band{...}` when an
oscillation gate is given. -/
def encode_neurosymbolic_triplet (nt : NeurotransmitterTag) (r : ReceptorTag)
    (m : ModifierTag) (gate : Option OscillationBandTag) : List Char :=
  let base := nt.pyName ++ '→' :: (receptorShort r ++ ':' :: m.value)
  match gate with
  | some g => g.value ++ openBrace :: (base ++ [closeBrace])
  | none => base

/-- The dictionary `parse_neurosymbolic_triplet` returns (its four entries). -/
structure ParsedTriplet where
  neurotransmitter : List Char
  receptor : List Char
  modifier : List Char
  oscillation_gate : Option (List Char)
  deriving DecidableEq

instance {ε α : Type} [DecidableEq ε] [DecidableEq α] :
    DecidableEq (Except ε α) := fun x y => by
  cases x <;> cases y
  case error.error a b =>
    exact decidable_of_iff (a = b) (by constructor <;> intro h <;> simp_all)
  case error.ok a b => exact isFalse (fun h => Except.noConfusion h)
  case ok.error a b => exact isFalse (fun h => Except.noConfusion h)
  case ok.ok a b =>
    exact decidable_of_iff (a = b) (by constructor <;> intro h <;> simp_all)

/-- `parse_neurosymbolic_triplet`: undo the optional `band{...}` wrapper
(splitting on the first `\x7b` and stripping trailing `\x7d`), then split
`NT→R:M` on `→` (exactly two parts required) and once on `:` (two parts
required), stripping whitespace; malformed input raises `ValueError`.  (The
`(none, s)` fallback of the wrapper branch is unreachable: splitting on a
character the string contains always yields two parts.) -/
def parse_neurosymbolic_triplet (s : List Char) :
    Except PyError ParsedTriplet :=
  let gateStep : Option (List Char) × List Char :=
    if s.contains openBrace && s.contains closeBrace then
      match pySplitOnce openBrace s with
      | [gatePart, rest] => (some (pyStrip gatePart), pyRstrip closeBrace rest)
      | _ => (none, s)
    else (none, s)
  match pySplitAll '→' gateStep.2 with
  | [p0, p1] =>
      match pySplitOnce ':' p1 with
      | [rp, mp] =>
          Except.ok ⟨pyStrip p0, pyStrip rp, pyStrip mp, gateStep.1⟩
      | _ => Except.error PyError.valueError
  | _ => Except.error PyError.valueError

/-! ### Facts about the Python string helpers -/

theorem contains_eq_false_of_not_mem {c : Char} {s : List Char} (h : c ∉ s) :
    s.contains c = false := by
  show s.elem c = false
  rw [List.elem_eq_mem]
  simp [h]

theorem contains_eq_true_of_mem {c : Char} {s : List Char} (h : c ∈ s) :
    s.contains c = true := by
  show s.elem c = true
  rw [List.elem_eq_mem]
  simp [h]

theorem dropWhile_eq_self_of_forall {p : Char → Bool} {l : List Char}
    (h : ∀ x ∈ l, p x = false) : l.dropWhile p = l := by
  cases l with
  | nil => rfl
  | cons x xs => simp [List.dropWhile_cons, h x (List.mem_cons_self x xs)]

theorem pyStrip_eq_self {s : List Char}
    (h : ∀ x ∈ s, x.isWhitespace = false) : pyStrip s = s := by
  unfold pyStrip
  rw [dropWhile_eq_self_of_forall h,
    dropWhile_eq_self_of_forall (fun x hx => h x (List.mem_reverse.mp hx)),
    List.reverse_reverse]

theorem pySplitAllAux_of_not_mem (sep : Char) :
    ∀ (s acc : List Char), sep ∉ s →
      pySplitAllAux sep s acc = [acc.reverse ++ s] := by
  intro s
  induction s with
  | nil => intro acc _; simp [pySplitAllAux]
  | cons c rest ih =>
      intro acc h
      have hc : ¬ c = sep := by
        intro e; subst e; exact h (List.mem_cons_self _ _)
      rw [pySplitAllAux, if_neg hc, ih (c :: acc)
        (fun hm => h (List.mem_cons_of_mem _ hm))]
      simp

theorem pySplitAllAux_append (sep : Char) :
    ∀ (a : List Char) (b acc : List Char), sep ∉ a →
      pySplitAllAux sep (a ++ sep :: b) acc =
        (acc.reverse ++ a) :: pySplitAll sep b := by
  intro a
  induction a with
  | nil => intro b acc _; simp [pySplitAllAux, pySplitAll]
  | cons c a' ih =>
      intro b acc h
      have hc : ¬ c = sep := by
        intro e; subst e; exact h (List.mem_cons_self _ _)
      rw [List.cons_append, pySplitAllAux, if_neg hc, ih b (c :: acc)
        (fun hm => h (List.mem_cons_of_mem _ hm))]
      simp

theorem pySplitAll_pair (sep : Char) (a b : List Char) (ha : sep ∉ a)
    (hb : sep ∉ b) : pySplitAll sep (a ++ sep :: b) = [a, b] := by
  rw [pySplitAll, pySplitAllAux_append sep a b [] ha, pySplitAll,
    pySplitAllAux_of_not_mem sep b [] hb]
  simp

theorem pySplitOnceAux_append (sep : Char) :
    ∀ (a : List Char) (b acc : List Char), sep ∉ a →
      pySplitOnceAux sep (a ++ sep :: b) acc = [acc.reverse ++ a, b] := by
  intro a
  induction a with
  | nil => intro b acc _; simp [pySplitOnceAux]
  | cons c a' ih =>
      intro b acc h
      have hc : ¬ c = sep := by
        intro e; subst e; exact h (List.mem_cons_self _ _)
      rw [List.cons_append, pySplitOnceAux, if_neg hc, ih b (c :: acc)
        (fun hm => h (List.mem_cons_of_mem _ hm))]
      simp

theorem pySplitOnce_pair (sep : Char) (a b : List Char) (ha : sep ∉ a) :
    pySplitOnce sep (a ++ sep :: b) = [a, b] := by
  rw [pySplitOnce, pySplitOnceAux_append sep a b [] ha]
  simp

theorem pyRstrip_append_single (c : Char) (base : List Char)
    (h : c ∉ base) : pyRstrip c (base ++ [c]) = base := by
  unfold pyRstrip
  rw [List.reverse_append]
  have h1 : List.dropWhile (fun x => x = c) (c :: base.reverse) =
      List.dropWhile (fun x => x = c) base.reverse := by
    simp [List.dropWhile_cons]
  have h2 : List.dropWhile (fun x => x = c) base.reverse = base.reverse :=
    dropWhile_eq_self_of_forall (fun x hx => by
      simp only [decide_eq_false_iff_not]
      intro e
      exact h (e ▸ List.mem_reverse.mp hx))
  simp only [List.reverse_cons, List.reverse_nil, List.nil_append,
    List.singleton_append]
  rw [h1, h2, List.reverse_reverse]

/-! ### Per-enum character facts, decided over the finite vocabularies -/

/-- A character that is none of the grammar's separators (`→`, `:`, the two
braces) and is not whitespace. -/
def isSafeChar (c : Char) : Bool :=
  !(c = '→') && !(c = ':') && !(c = openBrace) && !(c = closeBrace) &&
    !c.isWhitespace

theorem safeChars_pyName :
    ∀ (nt : NeurotransmitterTag), ∀ c ∈ nt.pyName, isSafeChar c = true := by
  decide

theorem safeChars_receptorShort :
    ∀ (r : ReceptorTag), ∀ c ∈ receptorShort r, isSafeChar c = true := by
  decide

theorem safeChars_modValue :
    ∀ (m : ModifierTag), ∀ c ∈ m.value, isSafeChar c = true := by
  decide

theorem safeChars_bandValue :
    ∀ (g : OscillationBandTag), ∀ c ∈ g.value, isSafeChar c = true := by
  decide

theorem safe_not_mem (c : Char) (hc : isSafeChar c = false)
    {s : List Char} (hs : ∀ x ∈ s, isSafeChar x = true) : c ∉ s := fun h => by
  rw [hs c h] at hc
  exact Bool.noConfusion hc

theorem safe_no_ws {s : List Char} (hs : ∀ x ∈ s, isSafeChar x = true) :
    ∀ x ∈ s, x.isWhitespace = false := fun x hx => by
  have h := hs x hx
  simp only [isSafeChar, Bool.and_eq_true, Bool.not_eq_true'] at h
  exact h.2

theorem parse_encode_eq (nt : NeurotransmitterTag) (r : ReceptorTag)
    (m : ModifierTag) (g : Option OscillationBandTag) :
    parse_neurosymbolic_triplet (encode_neurosymbolic_triplet nt r m g) =
      Except.ok ⟨nt.pyName, receptorShort r, m.value,
        Option.map OscillationBandTag.value g⟩ := by
  have hnt := safeChars_pyName nt
  have hrs := safeChars_receptorShort r
  have hmv := safeChars_modValue m
  have harrow_nt : ('→' : Char) ∉ nt.pyName :=
    safe_not_mem _ (by decide) hnt
  have harrow_rest : ('→' : Char) ∉ receptorShort r ++ ':' :: m.value := by
    intro h
    rcases List.mem_append.mp h with h | h
    · exact safe_not_mem _ (by decide) hrs h
    · rcases List.mem_cons.mp h with h | h
      · exact absurd h (by decide)
      · exact safe_not_mem _ (by decide) hmv h
  have hcolon_rs : (':' : Char) ∉ receptorShort r :=
    safe_not_mem _ (by decide) hrs
  have hbrace_B : ∀ c : Char, isSafeChar c = false → c ≠ '→' → c ≠ ':' →
      c ∉ nt.pyName ++ '→' :: (receptorShort r ++ ':' :: m.value) := by
    intro c hfalse hne1 hne2 hc
    rcases List.mem_append.mp hc with h | h
    · exact safe_not_mem c hfalse hnt h
    · rcases List.mem_cons.mp h with h | h
      · exact hne1 h
      · rcases List.mem_append.mp h with h | h
        · exact safe_not_mem c hfalse hrs h
        · rcases List.mem_cons.mp h with h | h
          · exact hne2 h
          · exact safe_not_mem c hfalse hmv h
  have hob_B : openBrace ∉
      nt.pyName ++ '→' :: (receptorShort r ++ ':' :: m.value) :=
    hbrace_B openBrace (by decide) (by decide) (by decide)
  have hcb_B : closeBrace ∉
      nt.pyName ++ '→' :: (receptorShort r ++ ':' :: m.value) :=
    hbrace_B closeBrace (by decide) (by decide) (by decide)
  have hstrip_nt : pyStrip nt.pyName = nt.pyName :=
    pyStrip_eq_self (safe_no_ws hnt)
  have hstrip_rs : pyStrip (receptorShort r) = receptorShort r :=
    pyStrip_eq_self (safe_no_ws hrs)
  have hstrip_mv : pyStrip m.value = m.value :=
    pyStrip_eq_self (safe_no_ws hmv)
  cases g with
  | none =>
      have h1 : (List.contains
          (nt.pyName ++ '→' :: (receptorShort r ++ ':' :: m.value))
          openBrace) = false := contains_eq_false_of_not_mem hob_B
      rw [encode_neurosymbolic_triplet]
      simp only [parse_neurosymbolic_triplet, h1, Bool.false_and,
        Bool.false_eq_true, if_false,
        pySplitAll_pair '→' nt.pyName (receptorShort r ++ ':' :: m.value)
          harrow_nt harrow_rest,
        pySplitOnce_pair ':' (receptorShort r) m.value hcolon_rs]
      rw [hstrip_nt, hstrip_rs, hstrip_mv]
      rfl
  | some gb =>
      have hgb := safeChars_bandValue gb
      have hob_gb : openBrace ∉ gb.value := safe_not_mem _ (by decide) hgb
      have hstrip_gb : pyStrip gb.value = gb.value :=
        pyStrip_eq_self (safe_no_ws hgb)
      rw [encode_neurosymbolic_triplet]
      have hto : gb.value ++ openBrace ::
          ((nt.pyName ++ '→' :: (receptorShort r ++ ':' :: m.value)) ++
            [closeBrace]) =
          gb.value ++ openBrace ::
          ((nt.pyName ++ '→' :: (receptorShort r ++ ':' :: m.value)) ++
            [closeBrace]) := rfl
      have h1 : (List.contains (gb.value ++ openBrace ::
          ((nt.pyName ++ '→' :: (receptorShort r ++ ':' :: m.value)) ++
            [closeBrace])) openBrace) = true :=
        contains_eq_true_of_mem (by
          exact List.mem_append.mpr (Or.inr (List.mem_cons_self _ _)))
      have h2 : (List.contains (gb.value ++ openBrace ::
          ((nt.pyName ++ '→' :: (receptorShort r ++ ':' :: m.value)) ++
            [closeBrace])) closeBrace) = true :=
        contains_eq_true_of_mem (by
          refine List.mem_append.mpr (Or.inr ?_)
          refine List.mem_cons_of_mem _ ?_
          exact List.mem_append.mpr (Or.inr (List.mem_cons_self _ _)))
      simp only [parse_neurosymbolic_triplet, h1, h2, Bool.true_and,
        if_true,
        pySplitOnce_pair openBrace gb.value
          ((nt.pyName ++ '→' :: (receptorShort r ++ ':' :: m.value)) ++
            [closeBrace]) hob_gb,
        pyRstrip_append_single closeBrace
          (nt.pyName ++ '→' :: (receptorShort r ++ ':' :: m.value)) hcb_B,
        pySplitAll_pair '→' nt.pyName (receptorShort r ++ ':' :: m.value)
          harrow_nt harrow_rest,
        pySplitOnce_pair ':' (receptorShort r) m.value hcolon_rs]
      rw [hstrip_nt, hstrip_rs, hstrip_mv, hstrip_gb]
      rfl

theorem pyName_inj : ∀ a b : NeurotransmitterTag,
    a.pyName = b.pyName → a = b := by decide

theorem receptorShort_inj : ∀ a b : ReceptorTag,
    receptorShort a = receptorShort b → a = b := by decide

theorem modValue_inj : ∀ a b : ModifierTag, a.value = b.value → a = b := by
  decide

theorem bandValue_inj : ∀ a b : OscillationBandTag,
    a.value = b.value → a = b := by decide

/-- C3: for every combination of defined enum tags (with or without an
oscillation gate), parsing the encoded triplet returns exactly the encoded
components (the neurotransmitter's enum name, the receptor's short name, the
modifier's text, and the gate band's name), and these determine the original
quadruple uniquely — encoding followed by decoding loses nothing. -/
theorem triplet_encode_decode_roundtrip (nt : NeurotransmitterTag)
    (r : ReceptorTag) (m : ModifierTag) (g : Option OscillationBandTag) :
    parse_neurosymbolic_triplet (encode_neurosymbolic_triplet nt r m g) =
      Except.ok ⟨nt.pyName, receptorShort r, m.value,
        Option.map OscillationBandTag.value g⟩ ∧
    ∀ (nt' : NeurotransmitterTag) (r' : ReceptorTag) (m' : ModifierTag)
      (g' : Option OscillationBandTag),
      parse_neurosymbolic_triplet (encode_neurosymbolic_triplet nt' r' m' g') =
        parse_neurosymbolic_triplet (encode_neurosymbolic_triplet nt r m g) →
      nt' = nt ∧ r' = r ∧ m' = m ∧ g' = g := by
  refine ⟨parse_encode_eq nt r m g, ?_⟩
  intro nt' r' m' g' h
  rw [parse_encode_eq, parse_encode_eq] at h
  simp only [Except.ok.injEq, ParsedTriplet.mk.injEq] at h
  obtain ⟨h1, h2, h3, h4⟩ := h
  refine ⟨pyName_inj _ _ h1, receptorShort_inj _ _ h2,
    modValue_inj _ _ h3, ?_⟩
  cases g' with
  | none => cases g with
    | none => rfl
    | some b => simp at h4
  | some b' => cases g with
    | none => simp at h4
    | some b =>
        simp at h4
        rw [bandValue_inj _ _ h4]

/-- C9: each of the registry's three keyed getters raises `KeyError` exactly
on unregistered keys: an unregistered name/id yields the not-found error, and
a registered key returns the stored state or config without raising. -/
theorem registry_getters_keyerror_iff_unregistered
    (reg : NeurochemicalRegistry) (name : String) :
    ((reg.neurotransmitters.lookup name = none →
        reg.get_neurotransmitter name = Except.error (PyError.keyError name)) ∧
      ∀ s, reg.neurotransmitters.lookup name = some s →
        reg.get_neurotransmitter name = Except.ok s) ∧
    ((reg.receptors.lookup name = none →
        reg.get_receptor name = Except.error (PyError.keyError name)) ∧
      ∀ s, reg.receptors.lookup name = some s →
        reg.get_receptor name = Except.ok s) ∧
    ((reg.configs.lookup name = none →
        reg.get_config name = Except.error (PyError.keyError name)) ∧
      ∀ c, reg.configs.lookup name = some c →
        reg.get_config name = Except.ok c) := by
  refine ⟨⟨fun h => ?_, fun s h => ?_⟩, ⟨fun h => ?_, fun s h => ?_⟩,
    ⟨fun h => ?_, fun c h => ?_⟩⟩ <;>
    simp [NeurochemicalRegistry.get_neurotransmitter,
      NeurochemicalRegistry.get_receptor, NeurochemicalRegistry.get_config, h]

/-- C1: `add_receptor` never completes — for every engine, receptor id,
optional initial state and optional config, the call raises `TypeError`,
because the engine passes three positional arguments to
`register_receptor`, which accepts only `(receptor_id, state)`. -/
theorem add_receptor_always_raises_typeerror
    (e : NeurochemicalEngine) (receptor_id : String)
    (initial_state : Option ReceptorState) (config : Option NTConfig) :
    e.add_receptor receptor_id initial_state config =
      Except.error PyError.typeError := by
  rfl

end ZADOS
